import Mathlib

/-!
Shallow embedding of the download-queue core of the music-downloader backend:
the `DownloadQueueItem` data model (`app/models/queue_models.py`), the
`QueueService` operations (`app/services/queue_service.py`), the
`QueueProcessor` dispatch loop and error handler
(`app/services/queue_processor.py`), and the queue API route guards
(`app/api/routes/queue.py`).

Modelling conventions:
* the SQL table is a `List DownloadQueueItem` in row (insertion/rowid) order;
* timestamps are abstract `Nat` ticks; every operation that stamps
  `datetime.utcnow()` takes the current tick as an explicit `now` argument;
* the ORM-managed `updated_at` audit column (`onupdate=datetime.utcnow`, never
  read by any code path) is not part of the record;
* `ORDER BY ... .first()` / `.limit/.offset` are embedded by a stable
  insertion sort followed by `head?` / `drop/take`;
* SQLAlchemy persists `Enum` columns as the member *name* string
  ("HIGH"/"NORMAL"/"LOW"), so `desc(priority)` compares those strings; the
  member values ("high"/"normal"/"low") would give the same relative order.
-/

namespace MusicQueue

/-- `QueueStatus` from `queue_models.py`. -/
inductive QueueStatus
  | pending
  | downloading
  | completed
  | failed
  | paused
  | cancelled
deriving DecidableEq

/-- `QueuePriority` from `queue_models.py`. -/
inductive QueuePriority
  | high
  | normal
  | low
deriving DecidableEq

/-- The enum-member name string that SQLAlchemy stores for a `QueuePriority`
column; `desc(DownloadQueueItem.priority)` orders by this string. -/
def storedName : QueuePriority → String
  | .high => "HIGH"
  | .normal => "NORMAL"
  | .low => "LOW"

/-- `QueueService.PRIORITY_ORDER` (higher number = higher priority). -/
def PRIORITY_ORDER : QueuePriority → Nat
  | .high => 3
  | .normal => 2
  | .low => 1

/-- The SQLAlchemy `case` expression built in `get_queue_position`
(`else_=0` is unreachable for enum-typed rows). -/
def priority_value_case : QueuePriority → Nat
  | .high => 3
  | .normal => 2
  | .low => 1

/-- One row of the `download_queue` table (`DownloadQueueItem` in
`queue_models.py`).  Column defaults follow the model definition;
`updated_at` is omitted (ORM-managed audit column, never read). -/
structure DownloadQueueItem where
  id : Nat
  url : String
  format : String
  priority : QueuePriority := .normal
  status : QueueStatus := .pending
  title : Option String := none
  artist : Option String := none
  duration : Option Int := none
  thumbnail : Option String := none
  progress : Int := 0
  current_retry : Int := 0
  max_retries : Int := 3
  error_message : Option String := none
  error_code : Option String := none
  file_path : Option String := none
  file_size : Option Int := none
  created_at : Nat
  started_at : Option Nat := none
  completed_at : Option Nat := none
  idempotency_key : Option String := none
deriving DecidableEq

/-- The queue table: rows in rowid (insertion) order. -/
abbrev DB := List DownloadQueueItem

/-- Replace the first element satisfying `q` by its image under `f`
(SQLAlchemy `.first()` + ORM mutation + commit). -/
def modifyFirst (q : DownloadQueueItem → Bool) (f : DownloadQueueItem → DownloadQueueItem) :
    DB → DB
  | [] => []
  | x :: xs => if q x then f x :: xs else x :: modifyFirst q f xs

/-- Remove the first element satisfying `q` (`db.delete(item)`). -/
def removeFirst (q : DownloadQueueItem → Bool) : DB → DB
  | [] => []
  | x :: xs => if q x then xs else x :: removeFirst q xs

/-- `QueueService.get_queue_item`: `.filter(id == item_id).first()`. -/
def get_queue_item (db : DB) (item_id : Nat) : Option DownloadQueueItem :=
  db.find? (fun it => it.id == item_id)

/-- Lexicographic comparison of character lists: the binary collation a SQL
`ORDER BY` applies to a string column. -/
def charListLt : List Char → List Char → Bool
  | [], [] => false
  | [], _ :: _ => true
  | _ :: _, [] => false
  | a :: as, b :: bs => if a < b then true else if b < a then false else charListLt as bs

/-- String comparison under binary collation. -/
def strLt (s t : String) : Bool :=
  charListLt s.data t.data

/-- `a` sorts no later than `b` under
`ORDER BY priority DESC, created_at ASC`, where the priority column holds
the stored enum-name string. -/
def queue_order_le (a b : DownloadQueueItem) : Bool :=
  strLt (storedName b.priority) (storedName a.priority) ||
    (storedName a.priority == storedName b.priority &&
      decide (a.created_at ≤ b.created_at))

/-- Stable insertion step for the embedding of `ORDER BY`. -/
def insertOrdered (x : DownloadQueueItem) : DB → DB
  | [] => [x]
  | y :: ys => if queue_order_le x y then x :: y :: ys else y :: insertOrdered x ys

/-- Stable sort embedding `ORDER BY priority DESC, created_at ASC`. -/
def sortByQueueOrder (l : DB) : DB :=
  l.foldr insertOrdered []

/-- `QueueService.list_queue_items`: optional status filter, then
`ORDER BY desc(priority), created_at LIMIT limit OFFSET offset`. -/
def list_queue_items (db : DB) (status : Option QueueStatus)
    (limit : Nat := 100) (offset : Nat := 0) : DB :=
  let q := match status with
    | some s => db.filter (fun it => it.status == s)
    | none => db
  ((sortByQueueOrder q).drop offset).take limit

/-- `QueueService.get_next_pending_item`: first pending row under
`ORDER BY desc(priority), created_at`. -/
def get_next_pending_item (db : DB) : Option DownloadQueueItem :=
  (sortByQueueOrder (db.filter (fun it => it.status == .pending))).head?

/-- `QueueService.get_downloading_count`. -/
def get_downloading_count (db : DB) : Nat :=
  (db.filter (fun it => it.status == .downloading)).length

/-- Autoincrement primary key for a fresh row. -/
def nextId (db : DB) : Nat :=
  db.foldr (fun it m => max it.id m) 0 + 1

/-- `QueueService.add_to_queue`.  Python truthiness: `if idempotency_key:`
skips the duplicate check for both `None` and the empty string, and
`idempotency_key or str(uuid.uuid4())` replaces an empty key by a fresh
UUID (`fresh_key` models the generated UUID string). -/
def add_to_queue (db : DB) (url format : String) (priority : QueuePriority)
    (idempotency_key : Option String) (fresh_key : String) (now : Nat) :
    DownloadQueueItem × DB :=
  let keyTruthy : Bool := match idempotency_key with
    | some k => k != ""
    | none => false
  let existing : Option DownloadQueueItem :=
    if keyTruthy then
      db.find? (fun it => it.idempotency_key == idempotency_key)
    else none
  match existing with
  | some it => (it, db)
  | none =>
    let key := match idempotency_key with
      | some k => if k = "" then fresh_key else k
      | none => fresh_key
    let it : DownloadQueueItem :=
      { id := nextId db, url := url, format := format, priority := priority,
        status := .pending, created_at := now, idempotency_key := some key }
    (it, db ++ [it])

/-- `QueueService.get_queue_position`. -/
def get_queue_position (db : DB) (item_id : Nat) : Nat :=
  match get_queue_item db item_id with
  | none => 0
  | some it =>
    if it.status ≠ .pending then 0
    else
      let item_priority_value := PRIORITY_ORDER it.priority
      let position := (db.filter (fun o =>
        o.status == .pending &&
          (decide (priority_value_case o.priority > item_priority_value) ||
            (o.priority == it.priority && decide (o.created_at < it.created_at))))).length
      position + 1

/-- `QueueService.update_priority`: legal only while pending; otherwise the
item is returned unchanged and nothing is written. -/
def update_priority (db : DB) (item_id : Nat) (new_priority : QueuePriority) :
    Option DownloadQueueItem × DB :=
  match get_queue_item db item_id with
  | none => (none, db)
  | some it =>
    if it.status ≠ .pending then (some it, db)
    else
      let f := fun (a : DownloadQueueItem) => { a with priority := new_priority }
      (some (f it), modifyFirst (fun a => a.id == item_id) f db)

/-- The status-keyed side effects of `QueueService.update_status`: the
unconditional status write, the timestamp/progress updates, and the error
fields on `failed`. -/
def applyStatus (it : DownloadQueueItem) (new_status : QueueStatus)
    (error_message error_code : Option String) (now : Nat) : DownloadQueueItem :=
  let it1 := { it with status := new_status }
  let it2 :=
    if new_status = .downloading then
      { it1 with started_at := some now, progress := 0 }
    else if new_status = .completed ∨ new_status = .failed ∨ new_status = .cancelled then
      let it' := { it1 with completed_at := some now }
      if new_status = .completed then { it' with progress := 100 } else it'
    else it1
  if new_status = .failed then
    { it2 with error_message := error_message, error_code := error_code }
  else it2

/-- `QueueService.update_status`: no legality check — any existing item is
moved to `new_status` with the keyed side effects. -/
def update_status (db : DB) (item_id : Nat) (new_status : QueueStatus)
    (error_message error_code : Option String) (now : Nat) :
    Option DownloadQueueItem × DB :=
  match get_queue_item db item_id with
  | none => (none, db)
  | some it =>
    let f := fun (a : DownloadQueueItem) => applyStatus a new_status error_message error_code now
    (some (f it), modifyFirst (fun a => a.id == item_id) f db)

/-- `QueueService.update_progress`: clamp to 0-100, never reject. -/
def update_progress (db : DB) (item_id : Nat) (progress : Int) :
    Option DownloadQueueItem × DB :=
  match get_queue_item db item_id with
  | none => (none, db)
  | some it =>
    let f := fun (a : DownloadQueueItem) => { a with progress := max 0 (min 100 progress) }
    (some (f it), modifyFirst (fun a => a.id == item_id) f db)

/-- `QueueService.pause_download`: legal only from pending or downloading. -/
def pause_download (db : DB) (item_id : Nat) : Option DownloadQueueItem × DB :=
  match get_queue_item db item_id with
  | none => (none, db)
  | some it =>
    if it.status = .pending ∨ it.status = .downloading then
      let f := fun (a : DownloadQueueItem) => { a with status := QueueStatus.paused }
      (some (f it), modifyFirst (fun a => a.id == item_id) f db)
    else (none, db)

/-- `QueueService.resume_download`: legal only from paused. -/
def resume_download (db : DB) (item_id : Nat) : Option DownloadQueueItem × DB :=
  match get_queue_item db item_id with
  | none => (none, db)
  | some it =>
    if it.status = .paused then
      let f := fun (a : DownloadQueueItem) => { a with status := QueueStatus.pending }
      (some (f it), modifyFirst (fun a => a.id == item_id) f db)
    else (none, db)

/-- `QueueService.delete_queue_item`: refused while downloading (file cleanup
is a filesystem side effect outside the table model). -/
def delete_queue_item (db : DB) (item_id : Nat) : Bool × DB :=
  match get_queue_item db item_id with
  | none => (false, db)
  | some it =>
    if it.status = .downloading then (false, db)
    else (true, removeFirst (fun a => a.id == item_id) db)

/-- The per-item retry bookkeeping of `QueueService.increment_retry`:
increment, then either mark failed (error fields untouched) or reset to
pending with error fields cleared. -/
def incrementRetryItem (a : DownloadQueueItem) : DownloadQueueItem :=
  let a1 := { a with current_retry := a.current_retry + 1 }
  if a1.current_retry ≥ a1.max_retries then
    { a1 with status := QueueStatus.failed }
  else
    { a1 with status := QueueStatus.pending, error_message := none, error_code := none }

/-- `QueueService.increment_retry`. -/
def increment_retry (db : DB) (item_id : Nat) : Option DownloadQueueItem × DB :=
  match get_queue_item db item_id with
  | none => (none, db)
  | some it =>
    (some (incrementRetryItem it),
      modifyFirst (fun a => a.id == item_id) incrementRetryItem db)

/-- `QueueService.cleanup_old_completed`: delete terminal rows whose
`completed_at` is strictly before the cutoff (a SQL NULL `completed_at`
never satisfies `completed_at < cutoff`). -/
def cleanup_old_completed (db : DB) (cutoff : Nat) : Nat × DB :=
  let doomed := fun (it : DownloadQueueItem) =>
    (it.status == QueueStatus.completed || it.status == QueueStatus.failed ||
      it.status == QueueStatus.cancelled) &&
    (match it.completed_at with
      | some t => decide (t < cutoff)
      | none => false)
  ((db.filter doomed).length, db.filter (fun it => !doomed it))

/-- Successful end of `QueueProcessor._download_audio`: the worker writes
file info, `progress=100`, `status=completed`, `completed_at=now` directly
on the row. -/
def mark_completed (db : DB) (item_id : Nat) (path : String) (size : Int)
    (now : Nat) : DB :=
  modifyFirst (fun a => a.id == item_id)
    (fun a =>
      { a with
          file_path := some path
          file_size := some size
          progress := 100
          status := QueueStatus.completed
          completed_at := some now }) db

/-- `QueueProcessor._handle_error`: retry via `increment_retry` while
`current_retry < max_retries`, otherwise mark failed with error fields and
`completed_at` set. -/
def handle_error (db : DB) (item_id : Nat) (error_code error_message : String)
    (now : Nat) : DB :=
  match get_queue_item db item_id with
  | none => db
  | some it =>
    if it.current_retry < it.max_retries then
      (increment_retry db item_id).2
    else
      modifyFirst (fun a => a.id == item_id)
        (fun a =>
          { a with
              status := QueueStatus.failed
              error_code := some error_code
              error_message := some error_message
              completed_at := some now }) db

/-- Typed rejections of the queue API routes (`app/api/routes/queue.py`). -/
inductive ApiError
  | notFound
  | cannotChangePriority
  | cannotRetry
  | maxRetriesReached
deriving DecidableEq

/-- Route `PUT /downloads/queue/{id}/priority`: 404 when missing, 400
`CANNOT_CHANGE_PRIORITY` unless pending, then the service update. -/
def update_priority_route (db : DB) (item_id : Nat) (new_priority : QueuePriority) :
    Except ApiError DownloadQueueItem × DB :=
  match get_queue_item db item_id with
  | none => (.error .notFound, db)
  | some it =>
    if it.status ≠ .pending then (.error .cannotChangePriority, db)
    else
      let r := update_priority db item_id new_priority
      (match r.1 with
        | some it' => .ok it'
        | none => .error .notFound, r.2)

/-- Route `POST /downloads/queue/{id}/retry`: only failed items, and only
while `current_retry < max_retries`; resets to pending with error fields
cleared and `current_retry` untouched. -/
def retry_failed_download (db : DB) (item_id : Nat) :
    Except ApiError DownloadQueueItem × DB :=
  match get_queue_item db item_id with
  | none => (.error .notFound, db)
  | some it =>
    if it.status ≠ .failed then (.error .cannotRetry, db)
    else if it.current_retry ≥ it.max_retries then (.error .maxRetriesReached, db)
    else
      let f := fun (a : DownloadQueueItem) =>
        { a with status := QueueStatus.pending, error_message := none, error_code := none }
      (.ok (f it), modifyFirst (fun a => a.id == item_id) f db)

/-- The `for _ in range(available_slots)` body of
`QueueProcessor._process_queue`: fetch the next pending item, skip it if it
is in the in-process `current_downloads` set (`continue`), otherwise mark
it downloading and record the claim. -/
def claimLoop (db : DB) (current_downloads : List Nat) (now : Nat) :
    Nat → DB × List Nat
  | 0 => (db, current_downloads)
  | slots + 1 =>
    match get_next_pending_item db with
    | none => (db, current_downloads)
    | some next_item =>
      if next_item.id ∈ current_downloads then
        claimLoop db current_downloads now slots
      else
        let db' := (update_status db next_item.id .downloading none none now).2
        claimLoop db' (next_item.id :: current_downloads) now slots

/-- `QueueProcessor._process_queue`: compute
`available_slots = max_concurrent - downloading count`, return untouched
when non-positive, otherwise run the claim loop for that many iterations. -/
def process_queue (max_concurrent : Nat) (db : DB) (current_downloads : List Nat)
    (now : Nat) : DB × List Nat :=
  let current_downloading := get_downloading_count db
  let available_slots : Int := (max_concurrent : Int) - (current_downloading : Int)
  if available_slots ≤ 0 then (db, current_downloads)
  else claimLoop db current_downloads now available_slots.toNat

/-- The shared state the scheduler acts on: the job table plus the
in-process `current_downloads` claim set of `QueueProcessor`. -/
structure SchedulerState where
  db : DB
  current_downloads : List Nat
deriving DecidableEq

/-- One dispatch cycle of the processor loop. -/
def dispatchStep (max_concurrent : Nat) (s : SchedulerState) (now : Nat) :
    SchedulerState :=
  let r := process_queue max_concurrent s.db s.current_downloads now
  ⟨r.1, r.2⟩

/-- A worker finishing successfully (`_download_audio` success, then the
`finally` discard from `current_downloads`). -/
def workerCompleteStep (s : SchedulerState) (item_id : Nat) (path : String)
    (size : Int) (now : Nat) : SchedulerState :=
  ⟨mark_completed s.db item_id path size now, s.current_downloads.erase item_id⟩

/-- A worker failing (`_handle_error`, then the `finally` discard). -/
def workerFailStep (s : SchedulerState) (item_id : Nat)
    (error_code error_message : String) (now : Nat) : SchedulerState :=
  ⟨handle_error s.db item_id error_code error_message now, s.current_downloads.erase item_id⟩

/-- The transitions of the queue system: the scheduler's dispatch cycle and
worker outcomes, interleaved with the operations reachable through the API
routes and the retention sweep. -/
inductive Step (max_concurrent : Nat) : SchedulerState → SchedulerState → Prop
  | dispatch (s : SchedulerState) (now : Nat) :
      Step max_concurrent s (dispatchStep max_concurrent s now)
  | workerComplete (s : SchedulerState) (item_id : Nat) (path : String)
      (size : Int) (now : Nat) :
      Step max_concurrent s (workerCompleteStep s item_id path size now)
  | workerFail (s : SchedulerState) (item_id : Nat)
      (error_code error_message : String) (now : Nat) :
      Step max_concurrent s (workerFailStep s item_id error_code error_message now)
  | progress (s : SchedulerState) (item_id : Nat) (p : Int) :
      Step max_concurrent s ⟨(update_progress s.db item_id p).2, s.current_downloads⟩
  | submit (s : SchedulerState) (url format : String) (priority : QueuePriority)
      (idempotency_key : Option String) (fresh_key : String) (now : Nat) :
      Step max_concurrent s
        ⟨(add_to_queue s.db url format priority idempotency_key fresh_key now).2,
          s.current_downloads⟩
  | changePriority (s : SchedulerState) (item_id : Nat) (p : QueuePriority) :
      Step max_concurrent s ⟨(update_priority s.db item_id p).2, s.current_downloads⟩
  | pause (s : SchedulerState) (item_id : Nat) :
      Step max_concurrent s ⟨(pause_download s.db item_id).2, s.current_downloads⟩
  | resume (s : SchedulerState) (item_id : Nat) :
      Step max_concurrent s ⟨(resume_download s.db item_id).2, s.current_downloads⟩
  | deleteItem (s : SchedulerState) (item_id : Nat) :
      Step max_concurrent s ⟨(delete_queue_item s.db item_id).2, s.current_downloads⟩
  | manualRetry (s : SchedulerState) (item_id : Nat) :
      Step max_concurrent s ⟨(retry_failed_download s.db item_id).2, s.current_downloads⟩
  | cleanup (s : SchedulerState) (cutoff : Nat) :
      Step max_concurrent s ⟨(cleanup_old_completed s.db cutoff).2, s.current_downloads⟩

/-- States reachable from the empty table with no in-process claims. -/
inductive Reachable (max_concurrent : Nat) : SchedulerState → Prop
  | init : Reachable max_concurrent ⟨[], []⟩
  | step {s t : SchedulerState} :
      Reachable max_concurrent s → Step max_concurrent s t → Reachable max_concurrent t

/-! Concrete scenarios used to evaluate the embedded operations. -/

/-- Spec scenario, first submission: a `low`-priority job (earliest). -/
def lowJob : DownloadQueueItem :=
  { id := 1, url := "https://youtube.com/watch?v=1", format := "mp3",
    priority := .low, created_at := 0, idempotency_key := some "k1" }

/-- Spec scenario, second submission: a `high`-priority job. -/
def highJob : DownloadQueueItem :=
  { id := 2, url := "https://youtube.com/watch?v=2", format := "mp3",
    priority := .high, created_at := 1, idempotency_key := some "k2" }

/-- Spec scenario, third submission: a `normal`-priority job (latest). -/
def normalJob : DownloadQueueItem :=
  { id := 3, url := "https://youtube.com/watch?v=3", format := "mp3",
    priority := .normal, created_at := 2, idempotency_key := some "k3" }

/-- Three pending jobs submitted in the order `low, high, normal`. -/
def scenarioDb : DB := [lowJob, highJob, normalJob]

/-- A job on its first download attempt (`current_retry = 0`,
`max_retries = 3`, currently downloading). -/
def retryJob : DownloadQueueItem :=
  { id := 1, url := "https://youtube.com/watch?v=r", format := "mp3",
    status := .downloading, created_at := 0, started_at := some 1 }

/-- Retry trace: the table holding only `retryJob`. -/
def failDb0 : DB := [retryJob]

/-- Retry trace after the first provider failure. -/
def failDb1 : DB := handle_error failDb0 1 "NETWORK_ERROR" "network down" 10

/-- Retry trace after the scheduler re-claims the job. -/
def redispatch1 : DB := (update_status failDb1 1 .downloading none none 11).2

/-- Retry trace after the second provider failure. -/
def failDb2 : DB := handle_error redispatch1 1 "NETWORK_ERROR" "network down" 12

/-- Retry trace after the second re-claim. -/
def redispatch2 : DB := (update_status failDb2 1 .downloading none none 13).2

/-- Retry trace after the third provider failure. -/
def failDb3 : DB := handle_error redispatch2 1 "NETWORK_ERROR" "network down" 14

/-- A row carrying the empty string as its stored idempotency key. -/
def emptyKeyJob : DownloadQueueItem :=
  { id := 1, url := "https://youtube.com/watch?v=e", format := "mp3",
    created_at := 0, idempotency_key := some "" }

/-- Table holding only `emptyKeyJob`. -/
def emptyKeyDb : DB := [emptyKeyJob]

/-- A failed job whose retry budget is exhausted
(`current_retry = max_retries = 3`). -/
def maxedFailedJob : DownloadQueueItem :=
  { id := 1, url := "https://youtube.com/watch?v=f", format := "mp3",
    status := .failed, current_retry := 3, max_retries := 3,
    error_code := some "NETWORK_ERROR", error_message := some "network down",
    created_at := 0, completed_at := some 5 }

/-- Table holding only `maxedFailedJob`. -/
def maxedFailedDb : DB := [maxedFailedJob]

/-- A failed job that still has retry budget (`current_retry = 1`). -/
def failedOnceJob : DownloadQueueItem :=
  { id := 4, url := "https://youtube.com/watch?v=g", format := "m4a",
    status := .failed, current_retry := 1, max_retries := 3,
    error_code := some "CONVERSION_FAILED", error_message := some "oops",
    created_at := 3, completed_at := some 9 }

/-- A completed job. -/
def completedJob : DownloadQueueItem :=
  { id := 5, url := "https://youtube.com/watch?v=c", format := "mp3",
    status := .completed, progress := 100, created_at := 4,
    started_at := some 6, completed_at := some 8,
    file_path := some "/tmp/c.mp3", file_size := some 1000 }

/-- A job currently downloading. -/
def downloadingJob : DownloadQueueItem :=
  { id := 6, url := "https://youtube.com/watch?v=d", format := "mp3",
    status := .downloading, progress := 40, created_at := 5, started_at := some 7 }

/-- A paused job. -/
def pausedJob : DownloadQueueItem :=
  { id := 7, url := "https://youtube.com/watch?v=p", format := "mp3",
    status := .paused, created_at := 6 }

/-- A mixed-status table for the mutation-operation scenarios. -/
def mixedDb : DB := [maxedFailedJob, failedOnceJob, completedJob, downloadingJob, pausedJob]

/-- Priority rank exactly as the spec words it:
`priority_rank(high)=3 > normal=2 > low=1`.  Spec-side definition, to be
compared with the code-side `get_queue_position`. -/
def spec_priority_rank : QueuePriority → Nat
  | .high => 3
  | .normal => 2
  | .low => 1

/-- `position` exactly as claim C4 words it: 0 if the job does not exist or
is not pending; otherwise 1 plus the count of pending jobs ranked strictly
ahead.  Spec-side definition. -/
def spec_position (db : DB) (item_id : Nat) : Nat :=
  match get_queue_item db item_id with
  | none => 0
  | some it =>
    if it.status = .pending then
      1 + db.countP (fun o =>
        o.status == .pending &&
          (decide (spec_priority_rank o.priority > spec_priority_rank it.priority) ||
            (o.priority == it.priority && decide (o.created_at < it.created_at))))
    else 0

/-- Scheduler state after one submission into the empty system. -/
def witnessState1 : SchedulerState :=
  ⟨(add_to_queue [] "https://youtube.com/watch?v=w" "mp3" .normal none "uuid-1" 0).2, []⟩

/-- Scheduler state after a dispatch cycle claims that submission. -/
def witnessState2 : SchedulerState := dispatchStep 3 witnessState1 1

/-! ### General lemmas about the embedding -/

/-- Finding the modified row again: `modifyFirst` rewrites exactly the row
`get_queue_item` returns, provided `f` keeps the id. -/
theorem get_queue_item_modifyFirst (db : DB) (item_id : Nat)
    (f : DownloadQueueItem → DownloadQueueItem) (it : DownloadQueueItem)
    (h : get_queue_item db item_id = some it) (hid : (f it).id = it.id) :
    get_queue_item (modifyFirst (fun a => a.id == item_id) f db) item_id = some (f it) := by
  induction db with
  | nil => simp [get_queue_item] at h
  | cons x xs ih =>
    by_cases hq : x.id = item_id
    · have hx : x = it := by simpa [get_queue_item, List.find?_cons, hq] using h
      subst hx
      simp [modifyFirst, hq, get_queue_item, List.find?_cons, hid]
    · have h' : get_queue_item xs item_id = some it := by
        simpa [get_queue_item, List.find?_cons, hq] using h
      simp only [modifyFirst]
      rw [if_neg (by simp [hq])]
      simpa [get_queue_item, List.find?_cons, hq] using ih h'

/-- Rows with another id are untouched by an id-keyed, id-preserving
`modifyFirst`. -/
theorem get_queue_item_modifyFirst_ne (db : DB) (item_id j : Nat)
    (f : DownloadQueueItem → DownloadQueueItem)
    (hf : ∀ a, (f a).id = a.id) (hj : j ≠ item_id) :
    get_queue_item (modifyFirst (fun a => a.id == item_id) f db) j =
      get_queue_item db j := by
  induction db with
  | nil => simp [modifyFirst]
  | cons x xs ih =>
    have hij : item_id ≠ j := fun hh => hj hh.symm
    by_cases hq : x.id = item_id
    · have hxj : x.id ≠ j := by omega
      have hfxj : (f x).id ≠ j := by rw [hf]; omega
      simp [modifyFirst, hq, get_queue_item, List.find?_cons, hxj, hfxj, hij]
    · by_cases hxj : x.id = j
      · simp [modifyFirst, hq, get_queue_item, List.find?_cons, hxj, hj]
      · simp only [modifyFirst]
        rw [if_neg (by simp [hq])]
        simpa [get_queue_item, List.find?_cons, hxj] using ih

/-- `modifyFirst` changes the value of `countP` by at most one. -/
theorem countP_modifyFirst_le_succ (p q : DownloadQueueItem → Bool)
    (f : DownloadQueueItem → DownloadQueueItem) (l : DB) :
    (modifyFirst q f l).countP p ≤ l.countP p + 1 := by
  induction l with
  | nil => simp [modifyFirst]
  | cons x xs ih =>
    by_cases hq : q x
    · simp only [modifyFirst, hq, if_true, List.countP_cons]
      by_cases h1 : p (f x) <;> by_cases h2 : p x <;> simp [h1, h2] <;> omega
    · simp only [modifyFirst, hq, if_false, List.countP_cons]
      by_cases h2 : p x <;> simp [h2] <;> omega

/-- If `f` never produces a `p`-row, `modifyFirst` cannot increase the
`p`-count. -/
theorem countP_modifyFirst_of_false (p q : DownloadQueueItem → Bool)
    (f : DownloadQueueItem → DownloadQueueItem) (hf : ∀ a, p (f a) = false) (l : DB) :
    (modifyFirst q f l).countP p ≤ l.countP p := by
  induction l with
  | nil => simp [modifyFirst]
  | cons x xs ih =>
    by_cases hq : q x
    · simp only [modifyFirst, hq, if_true, List.countP_cons, hf]
      by_cases h2 : p x <;> simp [h2] <;> omega
    · simp only [modifyFirst, hq, if_false, List.countP_cons]
      by_cases h2 : p x <;> simp [h2] <;> omega

/-- If `f` preserves `p`, `modifyFirst` preserves the `p`-count. -/
theorem countP_modifyFirst_of_preserve (p q : DownloadQueueItem → Bool)
    (f : DownloadQueueItem → DownloadQueueItem) (hf : ∀ a, p (f a) = p a) (l : DB) :
    (modifyFirst q f l).countP p = l.countP p := by
  induction l with
  | nil => simp [modifyFirst]
  | cons x xs ih =>
    by_cases hq : q x
    · simp [modifyFirst, hq, List.countP_cons, hf]
    · simp [modifyFirst, hq, List.countP_cons, ih]

/-- Removing a row cannot increase the `p`-count. -/
theorem countP_removeFirst_le (p q : DownloadQueueItem → Bool) (l : DB) :
    (removeFirst q l).countP p ≤ l.countP p := by
  induction l with
  | nil => simp [removeFirst]
  | cons x xs ih =>
    by_cases hq : q x
    · simp only [removeFirst, hq, if_true, List.countP_cons]
      by_cases h2 : p x <;> simp [h2] <;> omega
    · simp only [removeFirst, hq, if_false, List.countP_cons]
      by_cases h2 : p x <;> simp [h2] <;> omega

/-- The downloading counter as a `countP`. -/
theorem get_downloading_count_eq (db : DB) :
    get_downloading_count db = db.countP (fun it => it.status == .downloading) := by
  simp [get_downloading_count, List.countP_eq_length_filter]

/-- Filtering cannot increase a `countP`. -/
theorem countP_filter_le_countP (p g : DownloadQueueItem → Bool) (l : DB) :
    (l.filter g).countP p ≤ l.countP p := by
  induction l with
  | nil => simp
  | cons x xs ih =>
    simp only [List.filter_cons, List.countP_cons]
    by_cases hg : g x
    · simp only [hg, if_true, List.countP_cons]
      by_cases hp : p x <;> simp [hp] <;> omega
    · simp only [hg, if_false]
      by_cases hp : p x <;> simp [hp] <;> omega

/-! ### Claim theorems -/

/-- **C1** (code bug evaluation).  With three pending jobs submitted in the
order `low` (id 1), `high` (id 2), `normal` (id 3), the dispatch query
returns the `normal` job and the pending listing comes back in the order
`normal, low, high` — because `desc(priority)` sorts the stored enum
strings, under which "NORMAL" > "LOW" > "HIGH" — while the separate
numeric-rank position computation reports position 1 for the `high` job.
The claimed order `high, normal, low` does not hold. -/
theorem dispatch_and_list_order_on_low_high_normal :
    (get_next_pending_item scenarioDb).map (fun it => it.id) = some 3 ∧
    (list_queue_items scenarioDb (some .pending) 100 0).map (fun it => it.id) =
      [3, 1, 2] ∧
    get_queue_position scenarioDb 2 = 1 ∧
    (list_queue_items scenarioDb (some .pending) 100 0).map (fun it => it.priority) =
      [.normal, .low, .high] := by decide

/-- **C2** (code bug evaluation).  A job with `max_retries = 3` and
`current_retry = 0` that fails on every attempt is requeued
`downloading→pending` only twice (after the 1st and 2nd failures); the 3rd
failure marks it `failed` through `increment_retry`, which sets neither
`error_code`/`error_message` nor `completed_at`.  The claimed behaviour —
exactly `max_retries` requeues and error fields plus `completed_at` set on
the failing transition — does not hold. -/
theorem retry_trace_evaluation :
    retryJob.current_retry = 0 ∧ retryJob.max_retries = 3 ∧
    (get_queue_item failDb1 1).map (fun it => (it.status, it.current_retry)) =
      some (.pending, 1) ∧
    (get_queue_item failDb2 1).map (fun it => (it.status, it.current_retry)) =
      some (.pending, 2) ∧
    (get_queue_item failDb3 1).map
        (fun it => (it.status, it.current_retry, it.error_code, it.error_message,
          it.completed_at)) =
      some (.failed, 3, none, none, none) :=
  ⟨by decide, by decide, by decide, by decide, by decide⟩

/-- **C3** (counterexample).  The claim quantifies over every idempotency
key, but `if idempotency_key:` treats the empty string as absent: with a
row whose stored key is `""` already present, submitting again with key
`""` creates a second record with a fresh id instead of returning the
existing one. -/
theorem submit_empty_key_not_idempotent :
    emptyKeyJob ∈ emptyKeyDb ∧ emptyKeyJob.idempotency_key = some "" ∧
    (add_to_queue emptyKeyDb "https://youtube.com/watch?v=e" "mp3" .normal
        (some "") "fresh-uuid" 7).1.id ≠ emptyKeyJob.id ∧
    (add_to_queue emptyKeyDb "https://youtube.com/watch?v=e" "mp3" .normal
        (some "") "fresh-uuid" 7).2.length = 2 := by decide

/-- **C3** (amended).  For every non-empty idempotency key, if a job with
that key already exists, submission returns that job unchanged and leaves
the table untouched — hence the same id on every repetition and no new
record. -/
theorem add_to_queue_idempotent_for_nonempty_key
    (db : DB) (url format fresh_key : String) (priority : QueuePriority)
    (k : String) (it : DownloadQueueItem) (now : Nat)
    (hk : k ≠ "")
    (h : db.find? (fun o => o.idempotency_key == some k) = some it) :
    add_to_queue db url format priority (some k) fresh_key now = (it, db) := by
  unfold add_to_queue
  simp [hk, h]

/-- **C3** (witness).  The `high` job of the scenario table carries key
"k2"; resubmitting with that key returns it and leaves the table as is. -/
theorem add_to_queue_idempotent_witness :
    ("k2" : String) ≠ "" ∧
    scenarioDb.find? (fun o => o.idempotency_key == some "k2") = some highJob ∧
    add_to_queue scenarioDb "https://youtube.com/watch?v=2" "mp3" .low
      (some "k2") "fresh-uuid" 99 = (highJob, scenarioDb) :=
  ⟨by decide, by decide,
    add_to_queue_idempotent_for_nonempty_key scenarioDb
      "https://youtube.com/watch?v=2" "mp3" "fresh-uuid" .low "k2" highJob 99
      (by decide) (by decide)⟩

/-- The numeric rank used by `PRIORITY_ORDER` agrees with the spec's
`priority_rank`. -/
theorem PRIORITY_ORDER_eq_rank (p : QueuePriority) :
    PRIORITY_ORDER p = spec_priority_rank p := by
  cases p <;> rfl

/-- The SQL `case` expression agrees with the spec's `priority_rank`. -/
theorem priority_value_case_eq_rank (p : QueuePriority) :
    priority_value_case p = spec_priority_rank p := by
  cases p <;> rfl

/-- **C4** (confirmed).  `get_queue_position` computes exactly the spec's
formula: 0 when the job is missing or not pending, else 1 plus the number
of pending jobs with strictly greater rank or equal priority and strictly
earlier creation. -/
theorem get_queue_position_matches_spec (db : DB) (item_id : Nat) :
    get_queue_position db item_id = spec_position db item_id := by
  unfold get_queue_position spec_position
  cases h : get_queue_item db item_id with
  | none => rfl
  | some it =>
    by_cases hs : it.status = .pending
    · simp only [hs, ne_eq, not_true_eq_false, if_false, if_true,
        PRIORITY_ORDER_eq_rank, priority_value_case_eq_rank,
        List.countP_eq_length_filter]
      omega
    · simp [hs]

/-- **C6** (counterexample).  A job that failed with
`current_retry = max_retries = 3` is NOT reset to pending by a manual
retry: the route rejects it with `MAX_RETRIES_REACHED` and the table is
unchanged. -/
theorem manual_retry_rejected_at_max :
    maxedFailedJob.status = .failed ∧ maxedFailedJob.current_retry = 3 ∧
    maxedFailedJob.max_retries = 3 ∧
    (retry_failed_download maxedFailedDb 1).1 = .error .maxRetriesReached ∧
    (retry_failed_download maxedFailedDb 1).2 = maxedFailedDb :=
  ⟨by decide, by decide, by decide, rfl, by decide⟩

/-- **C6** (amended).  A manual retry on a failed job succeeds only while
`current_retry < max_retries`; it then resets the job to pending with the
error fields cleared and `current_retry` NOT reset (the record update
leaves `current_retry` untouched). -/
theorem manual_retry_below_max (db : DB) (item_id : Nat)
    (it : DownloadQueueItem) (h : get_queue_item db item_id = some it)
    (hs : it.status = .failed) (hr : it.current_retry < it.max_retries) :
    (retry_failed_download db item_id).1 =
      .ok { it with status := .pending, error_message := none, error_code := none } ∧
    get_queue_item (retry_failed_download db item_id).2 item_id =
      some { it with status := .pending, error_message := none, error_code := none } := by
  have hnot : ¬it.current_retry ≥ it.max_retries := not_le.mpr hr
  constructor
  · simp [retry_failed_download, h, hs, hnot]
  · simp only [retry_failed_download, h, hs, ne_eq, not_true_eq_false, if_false,
      hnot, ite_false]
    exact get_queue_item_modifyFirst db item_id _ it h rfl

/-- **C6** (witness).  The failed job with `current_retry = 1 < 3` in the
mixed table is reset to pending, error fields cleared, retry counter kept. -/
theorem manual_retry_below_max_witness :
    (get_queue_item mixedDb 4 = some failedOnceJob ∧
      failedOnceJob.status = .failed ∧
      failedOnceJob.current_retry < failedOnceJob.max_retries) ∧
    ((retry_failed_download mixedDb 4).1 =
      .ok { failedOnceJob with
              status := .pending, error_message := none, error_code := none } ∧
    get_queue_item (retry_failed_download mixedDb 4).2 4 =
      some { failedOnceJob with
              status := .pending, error_message := none, error_code := none }) :=
  ⟨⟨by decide, by decide, by decide⟩,
    manual_retry_below_max mixedDb 4 failedOnceJob (by decide) (by decide) (by decide)⟩

/-- **C7** (confirmed).  Illegal transitions are rejected and write
nothing: pausing a completed job returns `none` with the table unchanged,
deleting a downloading job returns `false` with the table unchanged, and a
priority change on a non-pending job is refused by the route
(`CANNOT_CHANGE_PRIORITY`) while the service returns the item with no field
modified and the table unchanged. -/
theorem illegal_ops_leave_record_unchanged (db : DB) (item_id : Nat)
    (np : QueuePriority) (it : DownloadQueueItem)
    (h : get_queue_item db item_id = some it) :
    (it.status = .completed → pause_download db item_id = (none, db)) ∧
    (it.status = .downloading → delete_queue_item db item_id = (false, db)) ∧
    (it.status ≠ .pending →
      update_priority db item_id np = (some it, db) ∧
      update_priority_route db item_id np = (.error .cannotChangePriority, db)) := by
  refine ⟨fun hs => ?_, fun hs => ?_, fun hs => ?_⟩
  · simp [pause_download, h, hs]
  · simp [delete_queue_item, h, hs]
  · constructor
    · simp [update_priority, h, hs]
    · simp [update_priority_route, h, hs]

/-- **C7** (witness).  Instantiated at the completed job of the mixed
table. -/
theorem illegal_ops_leave_record_unchanged_witness :
    get_queue_item mixedDb 5 = some completedJob ∧
    ((completedJob.status = .completed → pause_download mixedDb 5 = (none, mixedDb)) ∧
    (completedJob.status = .downloading → delete_queue_item mixedDb 5 = (false, mixedDb)) ∧
    (completedJob.status ≠ .pending →
      update_priority mixedDb 5 .high = (some completedJob, mixedDb) ∧
      update_priority_route mixedDb 5 .high = (.error .cannotChangePriority, mixedDb))) :=
  ⟨by decide, illegal_ops_leave_record_unchanged mixedDb 5 .high completedJob (by decide)⟩

/-- **C8** (confirmed).  For every existing job and every integer `p`,
`update_progress` stores exactly `max 0 (min 100 p)` — the write is never
rejected — and the stored value lies in `[0, 100]`. -/
theorem update_progress_clamps (db : DB) (item_id : Nat) (p : Int)
    (it : DownloadQueueItem) (h : get_queue_item db item_id = some it) :
    (update_progress db item_id p).1 =
      some { it with progress := max 0 (min 100 p) } ∧
    get_queue_item (update_progress db item_id p).2 item_id =
      some { it with progress := max 0 (min 100 p) } ∧
    0 ≤ max 0 (min 100 p) ∧ max 0 (min 100 p) ≤ 100 := by
  refine ⟨?_, ?_, le_max_left 0 _, ?_⟩
  · simp [update_progress, h]
  · simp only [update_progress, h]
    exact get_queue_item_modifyFirst db item_id _ it h rfl
  · have h1 : min 100 p ≤ 100 := min_le_left 100 p
    omega

/-- **C8** (witness).  Writing 150 to the downloading job stores 100. -/
theorem update_progress_clamps_witness :
    get_queue_item mixedDb 6 = some downloadingJob ∧
    ((update_progress mixedDb 6 150).1 =
      some { downloadingJob with progress := max 0 (min 100 150) } ∧
    get_queue_item (update_progress mixedDb 6 150).2 6 =
      some { downloadingJob with progress := max 0 (min 100 150) } ∧
    0 ≤ max 0 (min 100 (150 : Int)) ∧ max 0 (min 100 (150 : Int)) ≤ 100) :=
  ⟨by decide, update_progress_clamps mixedDb 6 150 downloadingJob (by decide)⟩

/-- **C9** (confirmed).  Resuming a paused job sets `status := pending` and
changes nothing else on that record (in particular `created_at` is kept,
so the job re-enters the queue at its original creation time), and every
other row of the table is untouched. -/
theorem resume_sets_pending_preserves_rest (db : DB) (item_id : Nat)
    (it : DownloadQueueItem) (h : get_queue_item db item_id = some it)
    (hs : it.status = .paused) :
    (resume_download db item_id).1 = some { it with status := .pending } ∧
    get_queue_item (resume_download db item_id).2 item_id =
      some { it with status := .pending } ∧
    ({ it with status := QueueStatus.pending } : DownloadQueueItem).created_at =
      it.created_at ∧
    ∀ j, j ≠ item_id →
      get_queue_item (resume_download db item_id).2 j = get_queue_item db j := by
  refine ⟨?_, ?_, rfl, ?_⟩
  · simp [resume_download, h, hs]
  · simp only [resume_download, h, hs, if_true]
    exact get_queue_item_modifyFirst db item_id _ it h rfl
  · intro j hj
    simp only [resume_download, h, hs, if_true]
    exact get_queue_item_modifyFirst_ne db item_id j _ (fun a => rfl) hj

/-- **C9** (witness).  Resuming the paused job of the mixed table. -/
theorem resume_sets_pending_preserves_rest_witness :
    (get_queue_item mixedDb 7 = some pausedJob ∧ pausedJob.status = .paused) ∧
    ((resume_download mixedDb 7).1 = some { pausedJob with status := .pending } ∧
    get_queue_item (resume_download mixedDb 7).2 7 =
      some { pausedJob with status := .pending } ∧
    ({ pausedJob with status := QueueStatus.pending } : DownloadQueueItem).created_at =
      pausedJob.created_at ∧
    ∀ j, j ≠ 7 →
      get_queue_item (resume_download mixedDb 7).2 j = get_queue_item mixedDb j) :=
  ⟨⟨by decide, by decide⟩,
    resume_sets_pending_preserves_rest mixedDb 7 pausedJob (by decide) (by decide)⟩

/-- **C10** (confirmed).  `update_status` performs no legality check: for
every existing job — whatever its current status — and every requested
status, the stored status becomes exactly the requested one, with only the
timestamp/progress/error side effects keyed on the new status (so it will,
for example, move a completed job back to downloading). -/
theorem update_status_unconditional (db : DB) (item_id : Nat)
    (ns : QueueStatus) (em ec : Option String) (now : Nat)
    (it : DownloadQueueItem) (h : get_queue_item db item_id = some it) :
    (update_status db item_id ns em ec now).1 =
      some (applyStatus it ns em ec now) ∧
    get_queue_item (update_status db item_id ns em ec now).2 item_id =
      some (applyStatus it ns em ec now) ∧
    (applyStatus it ns em ec now).status = ns ∧
    (ns = .downloading → applyStatus it ns em ec now =
      { it with status := ns, started_at := some now, progress := 0 }) ∧
    (ns = .completed → applyStatus it ns em ec now =
      { it with status := ns, completed_at := some now, progress := 100 }) ∧
    (ns = .failed → applyStatus it ns em ec now =
      { it with
          status := ns
          completed_at := some now
          error_message := em
          error_code := ec }) ∧
    (ns = .cancelled → applyStatus it ns em ec now =
      { it with status := ns, completed_at := some now }) ∧
    (ns = .pending ∨ ns = .paused → applyStatus it ns em ec now =
      { it with status := ns }) := by
  refine ⟨?_, ?_, ?_, ?_, ?_, ?_, ?_, ?_⟩
  · simp [update_status, h]
  · simp only [update_status, h]
    exact get_queue_item_modifyFirst db item_id _ it h (by cases ns <;> rfl)
  · cases ns <;> rfl
  · rintro rfl; rfl
  · rintro rfl; rfl
  · rintro rfl; rfl
  · rintro rfl; rfl
  · rintro (rfl | rfl) <;> rfl

/-- **C10** (witness).  `update_status` moves the completed job of the
mixed table back to downloading. -/
theorem update_status_unconditional_witness :
    (get_queue_item mixedDb 5 = some completedJob ∧
      completedJob.status = .completed) ∧
    (update_status mixedDb 5 .downloading none none 42).1 =
      some (applyStatus completedJob .downloading none none 42) ∧
    (applyStatus completedJob .downloading none none 42).status = .downloading :=
  ⟨⟨by decide, by decide⟩,
    (update_status_unconditional mixedDb 5 .downloading none none 42 completedJob
      (by decide)).1,
    (update_status_unconditional mixedDb 5 .downloading none none 42 completedJob
      (by decide)).2.2.1⟩

/-! ### Lemmas for the concurrency bound -/

/-- Marking one row downloading raises the downloading count by at most 1. -/
theorem downloading_update_status_le (db : DB) (item_id : Nat)
    (ns : QueueStatus) (em ec : Option String) (now : Nat) :
    get_downloading_count (update_status db item_id ns em ec now).2 ≤
      get_downloading_count db + 1 := by
  unfold update_status
  cases h : get_queue_item db item_id with
  | none => simp
  | some it =>
    simp only [get_downloading_count_eq]
    exact countP_modifyFirst_le_succ _ _ _ db

/-- A worker completion never increases the downloading count. -/
theorem downloading_mark_completed_le (db : DB) (item_id : Nat)
    (path : String) (size : Int) (now : Nat) :
    get_downloading_count (mark_completed db item_id path size now) ≤
      get_downloading_count db := by
  unfold mark_completed
  simp only [get_downloading_count_eq]
  exact countP_modifyFirst_of_false _ _ _ (fun a => rfl) db

/-- The retry bookkeeping leaves a row pending or failed, never
downloading. -/
theorem incrementRetryItem_not_downloading (a : DownloadQueueItem) :
    ((incrementRetryItem a).status == QueueStatus.downloading) = false := by
  unfold incrementRetryItem
  by_cases h : a.current_retry + 1 ≥ a.max_retries
  · simp [h]
  · simp [h]

/-- `increment_retry` never increases the downloading count. -/
theorem downloading_increment_retry_le (db : DB) (item_id : Nat) :
    get_downloading_count (increment_retry db item_id).2 ≤
      get_downloading_count db := by
  unfold increment_retry
  cases h : get_queue_item db item_id with
  | none => simp
  | some it =>
    simp only [get_downloading_count_eq]
    exact countP_modifyFirst_of_false _ _ _ incrementRetryItem_not_downloading db

/-- An error outcome never increases the downloading count. -/
theorem downloading_handle_error_le (db : DB) (item_id : Nat)
    (ec em : String) (now : Nat) :
    get_downloading_count (handle_error db item_id ec em now) ≤
      get_downloading_count db := by
  unfold handle_error
  cases h : get_queue_item db item_id with
  | none => simp
  | some it =>
    by_cases hr : it.current_retry < it.max_retries
    · simpa [hr] using downloading_increment_retry_le db item_id
    · simp only [hr, if_false, get_downloading_count_eq]
      exact countP_modifyFirst_of_false _ _ _ (fun a => rfl) db

/-- A progress write never changes the downloading count. -/
theorem downloading_update_progress_le (db : DB) (item_id : Nat) (p : Int) :
    get_downloading_count (update_progress db item_id p).2 ≤
      get_downloading_count db := by
  unfold update_progress
  cases h : get_queue_item db item_id with
  | none => simp
  | some it =>
    simp only [get_downloading_count_eq]
    refine le_of_eq (countP_modifyFirst_of_preserve _ _ _ (fun a => ?_) db)
    rfl

/-- A submission inserts a pending row, never a downloading one. -/
theorem downloading_add_to_queue_le (db : DB) (url format : String)
    (priority : QueuePriority) (idempotency_key : Option String)
    (fresh_key : String) (now : Nat) :
    get_downloading_count
        (add_to_queue db url format priority idempotency_key fresh_key now).2 ≤
      get_downloading_count db := by
  unfold add_to_queue
  cases idempotency_key with
  | none =>
    simp [get_downloading_count_eq, List.countP_append, List.countP_cons]
  | some k =>
    by_cases hk : k != ""
    · cases hf : db.find? (fun it => it.idempotency_key == some k) with
      | none =>
        simp [hk, hf, get_downloading_count_eq, List.countP_append, List.countP_cons]
      | some it => simp [hk, hf]
    · simp [hk, get_downloading_count_eq, List.countP_append, List.countP_cons]

/-- A priority change never changes the downloading count. -/
theorem downloading_update_priority_le (db : DB) (item_id : Nat)
    (p : QueuePriority) :
    get_downloading_count (update_priority db item_id p).2 ≤
      get_downloading_count db := by
  unfold update_priority
  cases h : get_queue_item db item_id with
  | none => simp
  | some it =>
    by_cases hs : it.status ≠ QueueStatus.pending
    · simp [hs]
    · simp only [hs, if_false, get_downloading_count_eq]
      refine le_of_eq (countP_modifyFirst_of_preserve _ _ _ (fun a => ?_) db)
      rfl

/-- Pausing never increases the downloading count. -/
theorem downloading_pause_le (db : DB) (item_id : Nat) :
    get_downloading_count (pause_download db item_id).2 ≤
      get_downloading_count db := by
  unfold pause_download
  cases h : get_queue_item db item_id with
  | none => simp
  | some it =>
    by_cases hs : it.status = QueueStatus.pending ∨ it.status = QueueStatus.downloading
    · simp only [hs, if_true, get_downloading_count_eq]
      exact countP_modifyFirst_of_false _ _ _ (fun a => rfl) db
    · simp [hs]

/-- Resuming never increases the downloading count. -/
theorem downloading_resume_le (db : DB) (item_id : Nat) :
    get_downloading_count (resume_download db item_id).2 ≤
      get_downloading_count db := by
  unfold resume_download
  cases h : get_queue_item db item_id with
  | none => simp
  | some it =>
    by_cases hs : it.status = QueueStatus.paused
    · simp only [hs, if_true, get_downloading_count_eq]
      exact countP_modifyFirst_of_false _ _ _ (fun a => rfl) db
    · simp [hs]

/-- Deletion never increases the downloading count. -/
theorem downloading_delete_le (db : DB) (item_id : Nat) :
    get_downloading_count (delete_queue_item db item_id).2 ≤
      get_downloading_count db := by
  unfold delete_queue_item
  cases h : get_queue_item db item_id with
  | none => simp
  | some it =>
    by_cases hs : it.status = QueueStatus.downloading
    · simp [hs]
    · simp only [hs, if_false, get_downloading_count_eq]
      exact countP_removeFirst_le _ _ db

/-- A manual retry never increases the downloading count. -/
theorem downloading_retry_route_le (db : DB) (item_id : Nat) :
    get_downloading_count (retry_failed_download db item_id).2 ≤
      get_downloading_count db := by
  unfold retry_failed_download
  cases h : get_queue_item db item_id with
  | none => simp
  | some it =>
    by_cases hs : it.status ≠ QueueStatus.failed
    · simp [hs]
    · by_cases hr : it.current_retry ≥ it.max_retries
      · simp [hs, hr]
      · simp only [hs, hr, if_false, if_true, get_downloading_count_eq]
        exact countP_modifyFirst_of_false _ _ _ (fun a => rfl) db

/-- The retention sweep never increases the downloading count. -/
theorem downloading_cleanup_le (db : DB) (cutoff : Nat) :
    get_downloading_count (cleanup_old_completed db cutoff).2 ≤
      get_downloading_count db := by
  unfold cleanup_old_completed
  simp only [get_downloading_count_eq]
  exact countP_filter_le_countP _ _ db

/-- The claim loop raises the downloading count by at most its remaining
slot budget. -/
theorem downloading_claimLoop_le (now : Nat) :
    ∀ (n : Nat) (db : DB) (cds : List Nat),
      get_downloading_count (claimLoop db cds now n).1 ≤
        get_downloading_count db + n := by
  intro n
  induction n with
  | zero => intro db cds; simp [claimLoop]
  | succ n ih =>
    intro db cds
    unfold claimLoop
    cases h : get_next_pending_item db with
    | none => simp
    | some next =>
      by_cases hm : next.id ∈ cds
      · simp only [hm, if_true]
        exact le_trans (ih db cds) (by omega)
      · simp only [hm, if_false]
        refine le_trans (ih _ _) ?_
        have := downloading_update_status_le db next.id .downloading none none now
        omega

/-- One dispatch cycle keeps the downloading count within
`max_concurrent`, provided it was within the bound before. -/
theorem downloading_process_queue_le (max_concurrent : Nat) (db : DB)
    (cds : List Nat) (now : Nat)
    (h : get_downloading_count db ≤ max_concurrent) :
    get_downloading_count (process_queue max_concurrent db cds now).1 ≤
      max_concurrent := by
  unfold process_queue
  by_cases hle :
      (max_concurrent : Int) - (get_downloading_count db : Int) ≤ 0
  · simpa [hle] using h
  · simp only [hle, if_false]
    have hb := downloading_claimLoop_le now
      ((max_concurrent : Int) - (get_downloading_count db : Int)).toNat db cds
    omega

/-- Every step of the system preserves the concurrency bound. -/
theorem step_preserves_downloading_bound {max_concurrent : Nat}
    {s t : SchedulerState} (hst : Step max_concurrent s t)
    (h : get_downloading_count s.db ≤ max_concurrent) :
    get_downloading_count t.db ≤ max_concurrent := by
  cases hst with
  | dispatch now =>
    exact downloading_process_queue_le max_concurrent s.db s.current_downloads now h
  | workerComplete item_id path size now =>
    exact le_trans (downloading_mark_completed_le s.db item_id path size now) h
  | workerFail item_id ec em now =>
    exact le_trans (downloading_handle_error_le s.db item_id ec em now) h
  | progress item_id p =>
    exact le_trans (downloading_update_progress_le s.db item_id p) h
  | submit url format priority ik fk now =>
    exact le_trans (downloading_add_to_queue_le s.db url format priority ik fk now) h
  | changePriority item_id p =>
    exact le_trans (downloading_update_priority_le s.db item_id p) h
  | pause item_id =>
    exact le_trans (downloading_pause_le s.db item_id) h
  | resume item_id =>
    exact le_trans (downloading_resume_le s.db item_id) h
  | deleteItem item_id =>
    exact le_trans (downloading_delete_le s.db item_id) h
  | manualRetry item_id =>
    exact le_trans (downloading_retry_route_le s.db item_id) h
  | cleanup cutoff =>
    exact le_trans (downloading_cleanup_le s.db cutoff) h

/-- **C5** (confirmed).  In every state reachable by the system's step
relation — the scheduler dispatch cycle, worker outcomes, and the
API-route operations, starting from the empty table — at most
`max_concurrent` jobs hold `status = downloading`: each dispatch cycle
claims at most `max_concurrent - downloading` new jobs and no other step
raises the count. -/
theorem reachable_downloading_le_max {max_concurrent : Nat}
    {s : SchedulerState} (h : Reachable max_concurrent s) :
    get_downloading_count s.db ≤ max_concurrent := by
  induction h with
  | init => simp [get_downloading_count]
  | step hr hst ih => exact step_preserves_downloading_bound hst ih

/-- **C5** (witness).  With the default bound 3: after submitting one job
and running a dispatch cycle, at most 3 jobs are downloading. -/
theorem reachable_downloading_le_max_witness :
    get_downloading_count witnessState2.db ≤ 3 :=
  reachable_downloading_le_max
    (Reachable.step
      (Reachable.step Reachable.init
        (Step.submit ⟨[], []⟩ "https://youtube.com/watch?v=w" "mp3" .normal
          none "uuid-1" 0))
      (Step.dispatch witnessState1 1))

end MusicQueue
